import Mathlib

/-!
Verification of the linuxengraver document model and G-code export pipeline.

The Python source (src/linuxengraver) is shallowly embedded:
* JSON documents become an explicit `Json` AST (the text layer of
  `model_dump_json` / `model_validate_json` is abstracted to this AST;
  Python floats appearing in JSON are modelled as exact rationals).
* Python floats in the Material validator are modelled by `PyFloat`,
  which keeps the IEEE special values `nan`, `inf`, `-inf` so that the
  comparison semantics of the `gt=0` constraint is faithful.
* Coordinates fed to the toolpath generator are modelled as real numbers
  (the circle case uses `Real.cos` / `Real.sin` as the code uses
  `math.cos` / `math.sin`); the rectangle case has a rational twin used
  by the computable line renderer.
-/

namespace LinuxEngraver

/-- A JSON value, as produced and consumed by pydantic's
`model_dump_json` / `model_validate_json` in `document.py`. -/
inductive Json where
  | null
  | bool (b : Bool)
  | num (q : ℚ)
  | str (s : String)
  | arr (xs : List Json)
  | obj (fields : List (String × Json))

/-- First-match key lookup in an object's field list (a Python dict has
unique keys, so first-match is faithful). -/
def lookupField : List (String × Json) → String → Option Json
  | [], _ => none
  | (k, v) :: rest, key => if k = key then some v else lookupField rest key

/-- Field access on a JSON value; `none` when the value is not an object
or lacks the key. -/
def Json.getField (j : Json) (key : String) : Option Json :=
  match j with
  | .obj fields => lookupField fields key
  | _ => none

/-- A Python float as seen by the Material validator: a finite value
(modelled exactly as a rational) or one of the IEEE specials. -/
inductive PyFloat where
  | fin (q : ℚ)
  | nan
  | inf
  | ninf
deriving DecidableEq

/-- IEEE semantics of `v > 0` on a Python float: `nan > 0` is `False`,
`inf > 0` is `True`, `-inf > 0` is `False`. This is the check performed
both by pydantic's `Field(gt=0)` constraint and by the explicit
`_finite` validator in `material.py` (`if not (v > 0): raise ...`). -/
def PyFloat.gtZero : PyFloat → Bool
  | .fin q => decide (0 < q)
  | .nan => false
  | .inf => true
  | .ninf => false

/-- Error kinds raised during deserialization / validation, mirroring the
distinct failure modes of pydantic's ValidationError details. -/
inductive LoadError where
  | schemaError (msg : String)
  | unknownVariant (tag : String)
  | validationError (msg : String)
deriving DecidableEq

/-- model.material.Material: validated workpiece dimensions. The fields
hold whatever float the validator let through. -/
structure Material where
  width : PyFloat
  height : PyFloat
  thickness : PyFloat
deriving DecidableEq

/-- The Material constructor: pydantic runs `Field(gt=0)` and the
`_finite` validator on each field in declaration order; both amount to
the IEEE check `v > 0` (pydantic reports all field errors in one
ValidationError; we keep the first, which suffices for the claims). -/
def Material.construct (w h t : PyFloat) : Except LoadError Material :=
  if w.gtZero then
    if h.gtZero then
      if t.gtZero then .ok ⟨w, h, t⟩
      else .error (.validationError "Must be > 0")
    else .error (.validationError "Must be > 0")
  else .error (.validationError "Must be > 0")

/-- model.shapes.RectSpec (sans the constant discriminant field). -/
structure RectSpec where
  x : ℚ
  y : ℚ
  w : ℚ
  h : ℚ
deriving DecidableEq

/-- model.shapes.CircleSpec (sans the constant discriminant field). -/
structure CircleSpec where
  cx : ℚ
  cy : ℚ
  r : ℚ
deriving DecidableEq

/-- model.shapes.ShapeSpec: the discriminated union of the two shape
models. -/
inductive ShapeSpec where
  | rect (r : RectSpec)
  | circle (c : CircleSpec)
deriving DecidableEq

/-- model.document.Document: aggregate of a Material and an ordered
shape list. -/
structure Document where
  material : Material
  shapes : List ShapeSpec
deriving DecidableEq

/-- Serialization of a float field. Pydantic v2 serializes non-finite
floats to JSON null by default (ser_json_inf_nan is 'null'). -/
def PyFloat.toJson : PyFloat → Json
  | .fin q => .num q
  | _ => .null

/-- Serialization of a Material, field order as declared in the model. -/
def Material.toJson (m : Material) : Json :=
  .obj [("width", m.width.toJson), ("height", m.height.toJson),
        ("thickness", m.thickness.toJson)]

/-- Serialization of a shape: the discriminant field is literally
"type" with value "rect" / "circle", then the scalar fields in
declaration order. -/
def ShapeSpec.toJson : ShapeSpec → Json
  | .rect r => .obj [("type", .str "rect"), ("x", .num r.x), ("y", .num r.y),
                     ("w", .num r.w), ("h", .num r.h)]
  | .circle c => .obj [("type", .str "circle"), ("cx", .num c.cx),
                       ("cy", .num c.cy), ("r", .num c.r)]

/-- Document.to_json (the JSON structure of `model_dump_json(indent=2)`;
the rendered text is a function of this structure). -/
def Document.toJson (d : Document) : Json :=
  .obj [("material", d.material.toJson),
        ("shapes", .arr (d.shapes.map ShapeSpec.toJson))]

/-- Reading a float field from a JSON value. A JSON number is the only
accepted form modelled here (pydantic's lax mode additionally coerces
numeric strings; no claim exercises that). -/
def Json.asPyFloat : Json → Option PyFloat
  | .num q => some (.fin q)
  | _ => none

/-- Validation of one Material float field from JSON: presence, type,
then the `> 0` check. -/
def Material.fieldFromJson (j : Json) (key : String) : Except LoadError PyFloat :=
  match j.getField key with
  | none => .error (.schemaError (key ++ ": field required"))
  | some v =>
    match v.asPyFloat with
    | none => .error (.schemaError (key ++ ": float required"))
    | some f =>
      if f.gtZero then .ok f else .error (.validationError "Must be > 0")

/-- Deserialization + validation of a Material from a JSON value. -/
def Material.fromJson (j : Json) : Except LoadError Material :=
  match Material.fieldFromJson j "width" with
  | .error e => .error e
  | .ok w =>
    match Material.fieldFromJson j "height" with
    | .error e => .error e
    | .ok h =>
      match Material.fieldFromJson j "thickness" with
      | .error e => .error e
      | .ok t => .ok ⟨w, h, t⟩

/-- Reading a rational scalar field of a shape from JSON. -/
def shapeField (j : Json) (key : String) : Except LoadError ℚ :=
  match j.getField key with
  | none => .error (.schemaError (key ++ ": field required"))
  | some (.num q) => .ok q
  | some _ => .error (.schemaError (key ++ ": float required"))

/-- Deserialization of a RectSpec from a JSON object. -/
def RectSpec.fromJson (j : Json) : Except LoadError RectSpec :=
  match shapeField j "x" with
  | .error e => .error e
  | .ok x =>
    match shapeField j "y" with
    | .error e => .error e
    | .ok y =>
      match shapeField j "w" with
      | .error e => .error e
      | .ok w =>
        match shapeField j "h" with
        | .error e => .error e
        | .ok h => .ok ⟨x, y, w, h⟩

/-- Deserialization of a CircleSpec from a JSON object. -/
def CircleSpec.fromJson (j : Json) : Except LoadError CircleSpec :=
  match shapeField j "cx" with
  | .error e => .error e
  | .ok cx =>
    match shapeField j "cy" with
    | .error e => .error e
    | .ok cy =>
      match shapeField j "r" with
      | .error e => .error e
      | .ok r => .ok ⟨cx, cy, r⟩

/-- Deserialization of one shape: pydantic's discriminated union reads
the "type" tag and dispatches; a tag that is no recognized variant is a
hard error of the whole validation. -/
def ShapeSpec.fromJson (j : Json) : Except LoadError ShapeSpec :=
  match j.getField "type" with
  | some (.str t) =>
    if t = "rect" then
      match RectSpec.fromJson j with
      | .error e => .error e
      | .ok r => .ok (.rect r)
    else if t = "circle" then
      match CircleSpec.fromJson j with
      | .error e => .error e
      | .ok c => .ok (.circle c)
    else .error (.unknownVariant t)
  | some _ => .error (.schemaError "type: tag must be a string")
  | none => .error (.schemaError "type: tag required")

/-- Deserialization of the shape list; the first failing element fails
the whole list (pydantic validates the whole list and fails the load on
any invalid element). -/
def parseShapes : List Json → Except LoadError (List ShapeSpec)
  | [] => .ok []
  | j :: rest =>
    match ShapeSpec.fromJson j with
    | .error e => .error e
    | .ok s =>
      match parseShapes rest with
      | .error e => .error e
      | .ok ss => .ok (s :: ss)

/-- Document.from_json (`model_validate_json`): requires the material
field; the shapes field defaults to the empty list when absent
(`Field(default_factory=list)`). -/
def Document.fromJson (j : Json) : Except LoadError Document :=
  match j.getField "material" with
  | none => .error (.schemaError "material: field required")
  | some mj =>
    match Material.fromJson mj with
    | .error e => .error e
    | .ok m =>
      match j.getField "shapes" with
      | none => .ok ⟨m, []⟩
      | some (.arr xs) =>
        match parseShapes xs with
        | .error e => .error e
        | .ok ss => .ok ⟨m, ss⟩
      | some _ => .error (.schemaError "shapes: list required")

/-- One emitted program line of export.gcode, one constructor per
f-string template in the source: `rapidXY x y` is "G0 X{x:.3f} Y{y:.3f}",
`plunge` is the literal "G1 Z0.000 F300.0", `cutFeed x y` is
"G1 X{x:.3f} Y{y:.3f} F600.0", `cut x y` is "G1 X{x:.3f} Y{y:.3f}",
`retract` is the literal "G0 Z5.000", and `lit s` is a fixed
preamble / postamble line emitted verbatim. -/
inductive GLine (α : Type) where
  | rapidXY (x y : α)
  | plunge
  | cutFeed (x y : α)
  | cut (x y : α)
  | retract
  | lit (s : String)
deriving DecidableEq

/-- A line is a rapid XY move (emitted with no feed annotation). -/
def GLine.isRapid : GLine α → Bool
  | .rapidXY _ _ => true
  | _ => false

/-- A line is a cutting move (a G1 XY move, with or without feed). -/
def GLine.isCutting : GLine α → Bool
  | .cutFeed _ _ => true
  | .cut _ _ => true
  | _ => false

/-- A line carries an explicit feed annotation (an F word). -/
def GLine.hasFeed : GLine α → Bool
  | .plunge => true
  | .cutFeed _ _ => true
  | _ => false

/-- The fixed preamble of `_preamble` in gcode.py: a header comment,
absolute positioning, millimeter units, rapid to safe height. -/
def preambleLines {α : Type} : List (GLine α) :=
  [.lit "; Linux Engraver stub G-code",
   .lit "G90 ; absolute positioning",
   .lit "G21 ; units in mm",
   .lit "G0 Z5.0 ; safe height"]

/-- The fixed postamble of `_postamble` in gcode.py: rapid to safe
height, spindle stop, program end. -/
def postambleLines {α : Type} : List (GLine α) :=
  [.lit "G0 Z5.0",
   .lit "M5 ; spindle stop",
   .lit "M2 ; program end"]

/-- One sampled circle point of the polygon approximation in
`_shape_to_gcode`: `(cx + r*cos(2*pi*i/36), cy + r*sin(2*pi*i/36))`. -/
noncomputable def circlePt (c : CircleSpec) (i : ℕ) : ℝ × ℝ :=
  ((c.cx : ℝ) + (c.r : ℝ) * Real.cos (2 * Real.pi * i / 36),
   (c.cy : ℝ) + (c.r : ℝ) * Real.sin (2 * Real.pi * i / 36))

/-- The sampled point list `pts`: the comprehension over `range(37)`. -/
noncomputable def circlePts (c : CircleSpec) : List (ℝ × ℝ) :=
  (List.range 37).map (circlePt c)

/-- The toolpath lines of one shape (`_shape_to_gcode`), coordinates as
real numbers. The rectangle branch emits rapid, plunge, four linear
moves (only the first carrying the F600.0 annotation in the source) and
a retract; the circle branch emits rapid to `pts[0]`, plunge, one
annotated linear move per point of `pts[1:]`, and a retract. The
source's trailing `return []` for an unrecognized shape class is
unreachable here because `ShapeSpec` is a closed sum. -/
noncomputable def shapeToGcode : ShapeSpec → List (GLine ℝ)
  | .rect r =>
    [.rapidXY (r.x : ℝ) (r.y : ℝ),
     .plunge,
     .cutFeed ((r.x : ℝ) + (r.w : ℝ)) (r.y : ℝ),
     .cut ((r.x : ℝ) + (r.w : ℝ)) ((r.y : ℝ) + (r.h : ℝ)),
     .cut (r.x : ℝ) ((r.y : ℝ) + (r.h : ℝ)),
     .cut (r.x : ℝ) (r.y : ℝ),
     .retract]
  | .circle c =>
    match circlePts c with
    | [] => []
    | p0 :: rest =>
      .rapidXY p0.1 p0.2 :: .plunge ::
        (rest.map (fun p => GLine.cutFeed p.1 p.2) ++ [.retract])

/-- The full emitted line sequence of `export_gcode`: preamble, then the
lines of each shape in document order, then the postamble (the file
write joins these with newlines). -/
noncomputable def exportGcode (doc : Document) : List (GLine ℝ) :=
  preambleLines ++ doc.shapes.flatMap shapeToGcode ++ postambleLines

/-- Rational twin of the rectangle branch of `_shape_to_gcode`, used by
the computable line renderer (rectangle coordinates involve only exact
additions). -/
def rectLinesQ (x y w h : ℚ) : List (GLine ℚ) :=
  [.rapidXY x y,
   .plunge,
   .cutFeed (x + w) y,
   .cut (x + w) (y + h),
   .cut x (y + h),
   .cut x y,
   .retract]

/-- Coordinate cast from the rational twin into the real-valued lines. -/
def castLine : GLine ℚ → GLine ℝ
  | .rapidXY x y => .rapidXY (x : ℝ) (y : ℝ)
  | .plunge => .plunge
  | .cutFeed x y => .cutFeed (x : ℝ) (y : ℝ)
  | .cut x y => .cut (x : ℝ) (y : ℝ)
  | .retract => .retract
  | .lit s => .lit s

/-- Python's fixed-point formatting `f"{v:.3f}"` on an exact value:
sign, integer part, a dot, and exactly three fractional digits
(half-way rounding of inexact values is approximated by round half-up;
every formatted value in the claims is exact at three decimals). -/
def fmt3 (q : ℚ) : String :=
  let n : ℤ := Int.fdiv (2000 * q.num + (q.den : ℤ)) (2 * (q.den : ℤ))
  let m : ℕ := n.natAbs
  (if q < 0 then "-" else "") ++ toString (m / 1000) ++ "." ++
    String.mk [Nat.digitChar (m / 100 % 10), Nat.digitChar (m / 10 % 10),
               Nat.digitChar (m % 10)]

/-- Rendering of one line to program text, mirroring the f-string
templates of `_shape_to_gcode` character for character. -/
def renderLine : GLine ℚ → String
  | .rapidXY x y => "G0 X" ++ fmt3 x ++ " Y" ++ fmt3 y
  | .plunge => "G1 Z0.000 F300.0"
  | .cutFeed x y => "G1 X" ++ fmt3 x ++ " Y" ++ fmt3 y ++ " F600.0"
  | .cut x y => "G1 X" ++ fmt3 x ++ " Y" ++ fmt3 y
  | .retract => "G0 Z5.000"
  | .lit s => s

/-- The characters of a string after its last dot (scanning the
reversed character list up to the first dot): the fractional digits of
a trailing fixed-point field. -/
def takeUntilDot : List Char → List Char
  | [] => []
  | c :: rest => if c = '.' then [] else c :: takeUntilDot rest

/-- The fractional part of the last dot-separated numeric field of a
rendered line. -/
def lastDotFrac (s : String) : String :=
  String.mk (takeUntilDot s.data.reverse).reverse

/-- The sampled point list split at its head. -/
lemma circlePts_eq (c : CircleSpec) :
    circlePts c = circlePt c 0 ::
      (List.range 36).map (fun i => circlePt c (i + 1)) := by
  show (List.range (36 + 1)).map (circlePt c) = _
  rw [List.range_succ_eq_map, List.map_cons, List.map_map]
  rfl

/-- The circle branch of the generator, with the point list split at
its head. -/
lemma circle_lines_eq (c : CircleSpec) :
    shapeToGcode (.circle c) =
      .rapidXY (circlePt c 0).1 (circlePt c 0).2 :: .plunge ::
        ((List.range 36).map (fun i =>
          GLine.cutFeed (circlePt c (i + 1)).1 (circlePt c (i + 1)).2) ++
         [.retract]) := by
  simp only [shapeToGcode, circlePts_eq, List.map_map]
  rfl

/-- Serializing a shape and deserializing it recovers the shape. -/
lemma shape_roundtrip (s : ShapeSpec) :
    ShapeSpec.fromJson (ShapeSpec.toJson s) = .ok s := by
  cases s <;> rfl

/-- Serializing a Material whose fields are finite and positive and
deserializing it recovers the Material. -/
lemma material_roundtrip (m : Material) (a b c : ℚ)
    (hw : m.width = .fin a) (hh : m.height = .fin b) (ht : m.thickness = .fin c)
    (ha : 0 < a) (hb : 0 < b) (hc : 0 < c) :
    Material.fromJson (Material.toJson m) = .ok m := by
  rcases m with ⟨w, h, t⟩
  simp only at hw hh ht
  subst hw hh ht
  simp [Material.toJson, Material.fromJson, Material.fieldFromJson,
    Json.getField, lookupField, Json.asPyFloat, PyFloat.toJson, PyFloat.gtZero,
    ha, hb, hc]

/-- Serializing a shape list and deserializing it recovers the list. -/
lemma parseShapes_roundtrip (l : List ShapeSpec) :
    parseShapes (l.map ShapeSpec.toJson) = .ok l := by
  induction l with
  | nil => rfl
  | cons s rest ih => simp [parseShapes, shape_roundtrip s, ih]

/-- C1: for every valid Document (Material fields finite and positive),
deserializing the serialization yields a Document with the same
Material and the same ordered shape list (numeric fields preserved
exactly in the rational model of the float values). -/
theorem c1_serialize_roundtrip (d : Document) (a b c : ℚ)
    (hw : d.material.width = .fin a) (hh : d.material.height = .fin b)
    (ht : d.material.thickness = .fin c)
    (ha : 0 < a) (hb : 0 < b) (hc : 0 < c) :
    Document.fromJson (Document.toJson d) = .ok d := by
  rcases d with ⟨m, shapes⟩
  simp only at hw hh ht
  have hm := material_roundtrip m a b c hw hh ht ha hb hc
  have hs := parseShapes_roundtrip shapes
  simp [Document.toJson, Document.fromJson, Json.getField, lookupField, hm, hs]

/-- C1 witness: the round trip at a concrete document. -/
theorem c1_serialize_roundtrip_witness :
    Document.fromJson (Document.toJson
      ⟨⟨.fin 30, .fin 20, .fin 5⟩,
       [.rect ⟨0, 0, 10, 5⟩, .circle ⟨1, 2, 3⟩]⟩) =
    .ok ⟨⟨.fin 30, .fin 20, .fin 5⟩,
         [.rect ⟨0, 0, 10, 5⟩, .circle ⟨1, 2, 3⟩]⟩ :=
  c1_serialize_roundtrip _ 30 20 5 rfl rfl rfl
    (by norm_num) (by norm_num) (by norm_num)

/-- C4: an unrecognized shape tag fails the deserialization of the
shape (first conjunct, for any tag other than rect / circle and any
remaining fields), fails the whole document load rather than skipping
the shape (second conjunct, at the concrete persisted file of the
spec's example with a valid rect followed by a triangle), and every
successfully loaded document contains only recognized variants (third
conjunct). -/
theorem c4_unknown_variant_fails (tag : String) (flds : List (String × Json))
    (h1 : tag ≠ "rect") (h2 : tag ≠ "circle") :
    ShapeSpec.fromJson (.obj (("type", .str tag) :: flds)) =
      .error (.unknownVariant tag) ∧
    Document.fromJson (.obj
      [("material", .obj [("width", .num 30), ("height", .num 20),
                          ("thickness", .num 5)]),
       ("shapes", .arr
         [.obj [("type", .str "rect"), ("x", .num 0), ("y", .num 0),
                ("w", .num 10), ("h", .num 5)],
          .obj [("type", .str "triangle"), ("x", .num 0)]])]) =
      .error (.unknownVariant "triangle") ∧
    (∀ j d, Document.fromJson j = .ok d →
      ∀ s ∈ d.shapes, (∃ r, s = .rect r) ∨ (∃ c, s = .circle c)) := by
  refine ⟨?_, rfl, ?_⟩
  · simp [ShapeSpec.fromJson, Json.getField, lookupField, h1, h2]
  · intro j d _ s _
    cases s with
    | rect r => exact Or.inl ⟨r, rfl⟩
    | circle c => exact Or.inr ⟨c, rfl⟩

/-- C4 witness: the theorem at the concrete tag "triangle". -/
theorem c4_unknown_variant_fails_witness :
    ShapeSpec.fromJson (.obj [("type", .str "triangle"), ("x", .num 0)]) =
      .error (.unknownVariant "triangle") ∧
    Document.fromJson (.obj
      [("material", .obj [("width", .num 30), ("height", .num 20),
                          ("thickness", .num 5)]),
       ("shapes", .arr
         [.obj [("type", .str "rect"), ("x", .num 0), ("y", .num 0),
                ("w", .num 10), ("h", .num 5)],
          .obj [("type", .str "triangle"), ("x", .num 0)]])]) =
      .error (.unknownVariant "triangle") ∧
    (∀ j d, Document.fromJson j = .ok d →
      ∀ s ∈ d.shapes, (∃ r, s = .rect r) ∨ (∃ c, s = .circle c)) :=
  c4_unknown_variant_fails "triangle" [("x", Json.num 0)]
    (by decide) (by decide)

/-- C5: evaluation of the Material constructor at the claim's inputs
and at the diverging one. Width 0, height -5 and thickness NaN each
fail with a validation error, and -infinity fails, as the claim states;
but +infinity is accepted (inf > 0 holds, so both the gt=0 constraint
and the _finite validator pass), contradicting the claim and the
validator's own docstring, which promises finite positive floats. -/
theorem c5_material_validation_eval :
    Material.construct (.fin 0) (.fin 1) (.fin 1) =
      .error (.validationError "Must be > 0") ∧
    Material.construct (.fin 1) (.fin (-5)) (.fin 1) =
      .error (.validationError "Must be > 0") ∧
    Material.construct (.fin 1) (.fin 1) .nan =
      .error (.validationError "Must be > 0") ∧
    Material.construct .ninf (.fin 1) (.fin 1) =
      .error (.validationError "Must be > 0") ∧
    Material.construct .inf (.fin 1) (.fin 1) = .ok ⟨.inf, .fin 1, .fin 1⟩ := by
  refine ⟨rfl, ?_, rfl, rfl, rfl⟩
  simp [Material.construct, PyFloat.gtZero]

/-- C9: serialization is deterministic: it is a function of the
Material and the shape list alone, so two documents that agree on both
serialize to the same JSON value, and in particular repeated saves of
an unchanged document write identical output. -/
theorem c9_serialize_deterministic (d e : Document)
    (hm : d.material = e.material) (hs : d.shapes = e.shapes) :
    Document.toJson d = Document.toJson e := by
  cases d; cases e
  simp only at hm hs
  subst hm hs
  rfl

/-- C9 witness: determinism at a concrete document. -/
theorem c9_serialize_deterministic_witness :
    Document.toJson ⟨⟨.fin 30, .fin 20, .fin 5⟩, [.circle ⟨0, 0, 10⟩]⟩ =
    Document.toJson ⟨⟨.fin 30, .fin 20, .fin 5⟩, [.circle ⟨0, 0, 10⟩]⟩ :=
  c9_serialize_deterministic _ _ rfl rfl

/-- C10: deserialization ignores unrecognized extra fields at the
document, material and shape level (first conjunct: any extra fields
appended to the required ones are accepted and dropped), while a
missing required field or a mistyped required field fails the load
(remaining conjuncts). -/
theorem c10_extra_fields_ignored (mw mh mt : ℚ)
    (hw : 0 < mw) (hh : 0 < mh) (ht : 0 < mt)
    (extraDoc extraMat extraShape : List (String × Json)) (x y w h : ℚ) :
    Document.fromJson (.obj
      (("material", .obj (("width", .num mw) :: ("height", .num mh) ::
          ("thickness", .num mt) :: extraMat)) ::
       ("shapes", .arr [.obj (("type", .str "rect") :: ("x", .num x) ::
          ("y", .num y) :: ("w", .num w) :: ("h", .num h) :: extraShape)]) ::
       extraDoc)) =
      .ok ⟨⟨.fin mw, .fin mh, .fin mt⟩, [.rect ⟨x, y, w, h⟩]⟩ ∧
    Material.fromJson (.obj [("width", .num mw), ("height", .num mh)]) =
      .error (.schemaError "thickness: field required") ∧
    Material.fromJson (.obj [("width", .num mw), ("height", .num mh),
        ("thickness", .null)]) =
      .error (.schemaError "thickness: float required") ∧
    RectSpec.fromJson (.obj [("type", .str "rect"), ("x", .num x)]) =
      .error (.schemaError "y: field required") := by
  refine ⟨?_, ?_, ?_, rfl⟩
  · simp [Document.fromJson, Material.fromJson, Material.fieldFromJson,
      Json.getField, lookupField, Json.asPyFloat, PyFloat.gtZero,
      parseShapes, ShapeSpec.fromJson, RectSpec.fromJson, shapeField,
      hw, hh, ht]
  · simp [Material.fromJson, Material.fieldFromJson, Json.getField,
      lookupField, Json.asPyFloat, PyFloat.gtZero, hw, hh]
  · simp [Material.fromJson, Material.fieldFromJson, Json.getField,
      lookupField, Json.asPyFloat, PyFloat.gtZero, hw, hh]

/-- C10 witness: extra fields at every level at concrete values. -/
theorem c10_extra_fields_ignored_witness :
    Document.fromJson (.obj
      (("material", .obj (("width", .num 30) :: ("height", .num 20) ::
          ("thickness", .num 5) :: [("color", .str "oak")])) ::
       ("shapes", .arr [.obj (("type", .str "rect") :: ("x", .num 0) ::
          ("y", .num 0) :: ("w", .num 10) :: ("h", .num 5) ::
          [("label", .str "pocket")])]) ::
       [("version", .num 2)])) =
      .ok ⟨⟨.fin 30, .fin 20, .fin 5⟩, [.rect ⟨0, 0, 10, 5⟩]⟩ ∧
    Material.fromJson (.obj [("width", .num 30), ("height", .num 20)]) =
      .error (.schemaError "thickness: field required") ∧
    Material.fromJson (.obj [("width", .num 30), ("height", .num 20),
        ("thickness", .null)]) =
      .error (.schemaError "thickness: float required") ∧
    RectSpec.fromJson (.obj [("type", .str "rect"), ("x", .num 0)]) =
      .error (.schemaError "y: field required") :=
  c10_extra_fields_ignored 30 20 5 (by norm_num) (by norm_num) (by norm_num)
    [("version", Json.num 2)] [("color", Json.str "oak")]
    [("label", Json.str "pocket")] 0 0 10 5

/-- The cutting moves of the circle toolpath are exactly the annotated
moves through the sampled points after the first. -/
lemma circle_cuts (c : CircleSpec) :
    (shapeToGcode (.circle c)).filter GLine.isCutting =
      (List.range 36).map (fun i =>
        GLine.cutFeed (circlePt c (i + 1)).1 (circlePt c (i + 1)).2) := by
  rw [circle_lines_eq]
  simp [List.filter_append, List.filter_map, Function.comp, GLine.isCutting]
  have hp : (GLine.isCutting ∘ fun i : ℕ =>
      (GLine.cutFeed (circlePt c (i + 1)).1 (circlePt c (i + 1)).2 : GLine ℝ)) =
      fun _ => true := by
    funext i; rfl
  rw [hp, List.filter_true]

/-- C2: for every rectangle the generated move sequence is exactly one
rapid to the corner, one plunge, four cutting moves through the
remaining corners back to the start (five corner visits in all), and
one retract (first conjunct); the rational twin renders to the same
lines (second conjunct); and at Rect 0 0 10 5 the rendered lines are
the exact program text of the claim (third conjunct). -/
theorem c2_rect_toolpath (x y w h : ℚ) :
    shapeToGcode (.rect ⟨x, y, w, h⟩) =
      [.rapidXY (x : ℝ) (y : ℝ), .plunge,
       .cutFeed ((x : ℝ) + (w : ℝ)) (y : ℝ),
       .cut ((x : ℝ) + (w : ℝ)) ((y : ℝ) + (h : ℝ)),
       .cut (x : ℝ) ((y : ℝ) + (h : ℝ)),
       .cut (x : ℝ) (y : ℝ), .retract] ∧
    (rectLinesQ x y w h).map castLine = shapeToGcode (.rect ⟨x, y, w, h⟩) ∧
    (rectLinesQ 0 0 10 5).map renderLine =
      ["G0 X0.000 Y0.000", "G1 Z0.000 F300.0", "G1 X10.000 Y0.000 F600.0",
       "G1 X10.000 Y5.000", "G1 X0.000 Y5.000", "G1 X0.000 Y0.000",
       "G0 Z5.000"] := by
  refine ⟨rfl, ?_, ?_⟩
  · simp only [rectLinesQ, shapeToGcode, List.map_cons, List.map_nil, castLine]
    push_cast
    rfl
  · have hq : rectLinesQ 0 0 10 5 =
        [.rapidXY 0 0, .plunge, .cutFeed 10 0, .cut 10 5, .cut 0 5,
         .cut 0 0, .retract] := by
      simp [rectLinesQ]
    rw [hq]
    decide

/-- C3: the circle generator samples exactly 37 points at angles
2*pi*i/36 for i = 0..36; the last point equals the first exactly in
the real model (hence within the 1e-6 tolerance of the claim); and the
move sequence is one rapid to the first point, one plunge, 36 cutting
moves through the remaining points, and one retract. -/
theorem c3_circle_sampling (c : CircleSpec) :
    (circlePts c).length = 37 ∧
    circlePt c 36 = circlePt c 0 ∧
    |(circlePt c 36).1 - (circlePt c 0).1| ≤ 1 / 1000000 ∧
    |(circlePt c 36).2 - (circlePt c 0).2| ≤ 1 / 1000000 ∧
    shapeToGcode (.circle c) =
      .rapidXY (circlePt c 0).1 (circlePt c 0).2 :: .plunge ::
        ((List.range 36).map (fun i =>
          GLine.cutFeed (circlePt c (i + 1)).1 (circlePt c (i + 1)).2) ++
         [.retract]) ∧
    ((shapeToGcode (.circle c)).filter GLine.isCutting).length = 36 := by
  have h36 : 2 * Real.pi * ((36 : ℕ) : ℝ) / 36 = 2 * Real.pi := by
    push_cast; ring
  have h0 : 2 * Real.pi * ((0 : ℕ) : ℝ) / 36 = 0 := by
    push_cast; ring
  have hpt : circlePt c 36 = circlePt c 0 := by
    simp [circlePt, h36, h0, Real.cos_two_pi, Real.sin_two_pi]
  refine ⟨by simp [circlePts], hpt, ?_, ?_, circle_lines_eq c, ?_⟩
  · rw [hpt]; simp
  · rw [hpt]; simp
  · rw [circle_cuts]
    simp

/-- C6 counterexample: in the rectangle toolpath the fourth line
(index 3) is a cutting move that carries no feed annotation, refuting
the claim that every cutting-move line repeats the cut feed. -/
theorem c6_feed_counterexample :
    GLine.isCutting ((shapeToGcode (.rect ⟨0, 0, 10, 5⟩)).getD 3 .retract) =
      true ∧
    GLine.hasFeed ((shapeToGcode (.rect ⟨0, 0, 10, 5⟩)).getD 3 .retract) =
      false := by
  exact ⟨rfl, rfl⟩

/-- C6 amended: rapid lines never carry a feed annotation, the plunge
line always does, the first cutting move of each shape does; the
subsequent cutting moves of a rectangle carry no feed annotation,
while every cutting move of a circle carries one. -/
theorem c6_feed_annotation_amended (s : ShapeSpec) :
    (∀ l ∈ shapeToGcode s, l.isRapid = true → l.hasFeed = false) ∧
    (∀ l ∈ shapeToGcode s, l = .plunge → l.hasFeed = true) ∧
    (((shapeToGcode s).filter GLine.isCutting).head?.getD .retract).hasFeed =
      true ∧
    (∀ r, s = .rect r →
      ((shapeToGcode s).filter GLine.isCutting).tail.all
        (fun l => !l.hasFeed) = true) ∧
    (∀ c, s = .circle c →
      ((shapeToGcode s).filter GLine.isCutting).all GLine.hasFeed = true) := by
  cases s with
  | rect r =>
    refine ⟨?_, ?_, rfl, fun _ _ => rfl, fun c hc => nomatch hc⟩
    · intro l hl
      simp [shapeToGcode] at hl
      rcases hl with rfl | rfl | rfl | rfl | rfl | rfl | rfl <;>
        simp [GLine.isRapid, GLine.hasFeed]
    · intro l hl
      simp [shapeToGcode] at hl
      rcases hl with rfl | rfl | rfl | rfl | rfl | rfl | rfl <;>
        simp [GLine.hasFeed]
  | circle c =>
    refine ⟨?_, ?_, ?_, ?_, ?_⟩
    · intro l hl
      rw [circle_lines_eq] at hl
      simp at hl
      rcases hl with rfl | rfl | ⟨i, _, rfl⟩ | rfl <;>
        simp [GLine.isRapid, GLine.hasFeed]
    · intro l hl
      rw [circle_lines_eq] at hl
      simp at hl
      rcases hl with rfl | rfl | ⟨i, _, rfl⟩ | rfl <;>
        simp [GLine.hasFeed]
    · rw [circle_cuts]
      have hsplit : (List.range 36).map (fun i =>
          (GLine.cutFeed (circlePt c (i + 1)).1 (circlePt c (i + 1)).2 : GLine ℝ)) =
          GLine.cutFeed (circlePt c 1).1 (circlePt c 1).2 ::
            (List.range 35).map (fun i =>
              GLine.cutFeed (circlePt c (i + 2)).1 (circlePt c (i + 2)).2) := by
        show (List.range (35 + 1)).map _ = _
        rw [List.range_succ_eq_map, List.map_cons, List.map_map]
        rfl
      rw [hsplit]
      rfl
    · intro r hr
      simp at hr
    · intro c2 hc2
      rw [circle_cuts]
      simp [List.all_map, Function.comp, GLine.hasFeed]

/-- A digit character produced by a base-10 digit is never a dot. -/
lemma digitChar_ne_dot (n : ℕ) (h : n < 10) : Nat.digitChar n ≠ '.' := by
  interval_cases n <;> decide

/-- Scanning for a dot stops inside the left part when it has one. -/
lemma takeUntilDot_append_left (l1 l2 : List Char) (h : '.' ∈ l1) :
    takeUntilDot (l1 ++ l2) = takeUntilDot l1 := by
  induction l1 with
  | nil => cases h
  | cons c rest ih =>
    by_cases hc : c = '.'
    · simp [takeUntilDot, hc]
    · have hr : '.' ∈ rest := by
        rcases List.mem_cons.mp h with h1 | h1
        · exact absurd h1.symm hc
        · exact h1
      simp [takeUntilDot, hc, ih hr]

/-- The last-dot field of a concatenation whose right part has a dot is
that of the right part alone. -/
lemma lastDotFrac_append (a b : String) (h : '.' ∈ b.data) :
    lastDotFrac (a ++ b) = lastDotFrac b := by
  simp only [lastDotFrac, String.data_append, List.reverse_append]
  rw [takeUntilDot_append_left]
  simpa using h

/-- The field after the last dot of a string ending in a dot and three
non-dot characters is exactly those three characters. -/
lemma lastDotFrac_append_three (a : String) (d1 d2 d3 : Char)
    (h1 : d1 ≠ '.') (h2 : d2 ≠ '.') (h3 : d3 ≠ '.') :
    lastDotFrac (a ++ "." ++ String.mk [d1, d2, d3]) =
      String.mk [d1, d2, d3] := by
  have hdata : (a ++ "." ++ String.mk [d1, d2, d3]).data =
      a.data ++ '.' :: [d1, d2, d3] := by
    simp [String.data_append]
  simp only [lastDotFrac, hdata]
  simp [List.reverse_append, takeUntilDot, h1, h2, h3]

/-- Every value rendered by the 3-decimal formatter has exactly three
characters after its last dot. -/
lemma fmt3_three_decimals (q : ℚ) : (lastDotFrac (fmt3 q)).length = 3 := by
  have h3 := lastDotFrac_append_three
    ((if q < 0 then "-" else "") ++
      toString (((2000 * q.num + (q.den : ℤ)).fdiv (2 * (q.den : ℤ))).natAbs
        / 1000))
    (Nat.digitChar (((2000 * q.num + (q.den : ℤ)).fdiv
        (2 * (q.den : ℤ))).natAbs / 100 % 10))
    (Nat.digitChar (((2000 * q.num + (q.den : ℤ)).fdiv
        (2 * (q.den : ℤ))).natAbs / 10 % 10))
    (Nat.digitChar (((2000 * q.num + (q.den : ℤ)).fdiv
        (2 * (q.den : ℤ))).natAbs % 10))
    (digitChar_ne_dot _ (Nat.mod_lt _ (by norm_num)))
    (digitChar_ne_dot _ (Nat.mod_lt _ (by norm_num)))
    (digitChar_ne_dot _ (Nat.mod_lt _ (by norm_num)))
  calc (lastDotFrac (fmt3 q)).length
      = (String.mk [Nat.digitChar (((2000 * q.num + (q.den : ℤ)).fdiv
            (2 * (q.den : ℤ))).natAbs / 100 % 10),
          Nat.digitChar (((2000 * q.num + (q.den : ℤ)).fdiv
            (2 * (q.den : ℤ))).natAbs / 10 % 10),
          Nat.digitChar (((2000 * q.num + (q.den : ℤ)).fdiv
            (2 * (q.den : ℤ))).natAbs % 10)]).length := by
        rw [show fmt3 q = (if q < 0 then "-" else "") ++
          toString (((2000 * q.num + (q.den : ℤ)).fdiv
            (2 * (q.den : ℤ))).natAbs / 1000) ++ "." ++
          String.mk [Nat.digitChar (((2000 * q.num + (q.den : ℤ)).fdiv
              (2 * (q.den : ℤ))).natAbs / 100 % 10),
            Nat.digitChar (((2000 * q.num + (q.den : ℤ)).fdiv
              (2 * (q.den : ℤ))).natAbs / 10 % 10),
            Nat.digitChar (((2000 * q.num + (q.den : ℤ)).fdiv
              (2 * (q.den : ℤ))).natAbs % 10)] from rfl]
        rw [h3]
    _ = 3 := rfl

/-- C7 counterexample: the plunge line of the rectangle program renders
as "G1 Z0.000 F300.0", whose feed value carries one decimal digit, not
three, refuting the claim that every feed value is rendered with
exactly three decimal digits. -/
theorem c7_three_decimals_counterexample :
    GLine.plunge ∈ shapeToGcode (.rect ⟨0, 0, 10, 5⟩) ∧
    renderLine .plunge = "G1 Z0.000 F300.0" ∧
    lastDotFrac "G1 Z0.000 F300.0" = "0" ∧
    ("0" : String).length ≠ 3 := by
  refine ⟨?_, rfl, by decide, by decide⟩
  simp [shapeToGcode]

/-- C7 amended: every coordinate rendered by the formatter carries
exactly three decimal digits, while the feed annotations of the cut
and plunge lines and the safe-height Z of the preamble and postamble
are rendered with a single decimal digit. -/
theorem c7_three_decimals_amended (q : ℚ) :
    (lastDotFrac (fmt3 q)).length = 3 ∧
    lastDotFrac (renderLine (.cutFeed q q)) = "0" ∧
    lastDotFrac (renderLine (.plunge : GLine ℚ)) = "0" ∧
    lastDotFrac (renderLine (.retract : GLine ℚ)) = "000" ∧
    lastDotFrac (renderLine (.lit "G0 Z5.0")) = "0" := by
  refine ⟨fmt3_three_decimals q, ?_, by decide, by decide, by decide⟩
  show lastDotFrac ("G1 X" ++ fmt3 q ++ " Y" ++ fmt3 q ++ " F600.0") = "0"
  rw [lastDotFrac_append _ " F600.0" (by decide)]
  decide

/-- C8 counterexample: the program emitted for an empty document is not
the three spec-listed preamble lines followed by the postamble: the
emitted preamble additionally begins with a fixed header comment line,
so the claimed six-line program differs from the seven lines actually
produced. -/
theorem c8_empty_doc_counterexample :
    exportGcode ⟨⟨.fin 30, .fin 20, .fin 5⟩, []⟩ ≠
      ([.lit "G90 ; absolute positioning", .lit "G21 ; units in mm",
        .lit "G0 Z5.0 ; safe height"] ++ postambleLines) := by
  intro hEq
  have hLen := congrArg List.length hEq
  simp [exportGcode, preambleLines, postambleLines] at hLen

/-- C8 amended: exporting a document with no shapes yields exactly the
fixed preamble (header comment, absolute positioning, millimeter
units, rapid to safe height) followed immediately by the fixed
postamble (rapid to safe height, spindle stop, program end), with no
shape lines in between. -/
theorem c8_empty_doc_amended (m : Material) :
    exportGcode ⟨m, []⟩ = preambleLines ++ postambleLines ∧
    exportGcode ⟨m, []⟩ =
      [.lit "; Linux Engraver stub G-code",
       .lit "G90 ; absolute positioning",
       .lit "G21 ; units in mm",
       .lit "G0 Z5.0 ; safe height",
       .lit "G0 Z5.0",
       .lit "M5 ; spindle stop",
       .lit "M2 ; program end"] := by
  constructor
  · simp [exportGcode]
  · simp [exportGcode, preambleLines, postambleLines]

end LinuxEngraver
